import Mathlib

/-!
Shallow embedding of `src/firstproject.py` (a Streamlit personal expense
tracker backed by SQLite) and proofs of the specified properties.

Modelling conventions:
  * Python floats are modelled as rationals (`ℚ`); `round(x, 2)` is modelled
    by exact half-to-even rounding on `ℚ`.
  * The random primitives (`random.uniform`, `random.choice`,
    `faker.date_between_dates`) are modelled by an `Oracle` of arbitrary
    streams, constrained only by each primitive's documented contract
    (`OracleValid`).
  * The SQLite store is an association list from table name to row list.
    SQL execution is delegated by the source to sqlite3/pandas; here only the
    externally observable behaviour the program relies on is modelled:
    parse failure, resolution of the (single) FROM table with a
    table-not-found error when absent, full-table `SELECT *` results, and an
    abstract result for aggregate queries.
  * Exceptions are modelled with `Except`; a run of the Streamlit script is a
    function from the prior store and the selected action to the next store
    and the displayed output.
-/

set_option maxRecDepth 4000

/-- A calendar date, as produced by `pd.Timestamp` / `faker.date_between_dates`. -/
structure CalDate where
  year : Nat
  month : Nat
  day : Nat
  deriving DecidableEq, Repr

/-- Chronological order on calendar dates (lexicographic on year, month, day). -/
def dateLE (a b : CalDate) : Prop :=
  a.year < b.year ∨ (a.year = b.year ∧
    (a.month < b.month ∨ (a.month = b.month ∧ a.day ≤ b.day)))

instance (a b : CalDate) : Decidable (dateLE a b) := by
  unfold dateLE; infer_instance

/-- One simulated expense record, with the fields built by `generate_data`. -/
structure Record where
  Date : CalDate
  Category : String
  Payment_Mode : String
  Description : String
  Amount_Paid : ℚ
  Cashback : ℚ
  Month : String
  deriving DecidableEq, Repr

/-- The category pool of `generate_data` (13 values). -/
def categories : List String :=
  ["Food", "Transportation", "Bills", "Groceries", "Entertainment",
   "Investments", "School FEES", "College FEES", "Fruits & Vegetables",
   "Stationery", "Subscriptions", "Sports & Fitness", "Home Essentials"]

/-- The payment-mode pool of `generate_data` (7 values). -/
def payment_modes : List String :=
  ["Cash", "Online", "Credit Card", "Debit Card", "Wallet", "Net Banking", "UPI"]

/-- The description pool of `generate_data`. -/
def descriptions : List String :=
  ["Investment in mutual funds", "Paid school fees", "Bought groceries",
   "Dining out with family", "Purchased new stationery",
   "Monthly subscription fee", "Gym membership renewal",
   "Home improvement essentials"]

/-- `calendar.month_name[m]`: the English month name (empty for an index
outside 1..12, where Python would raise or return the empty first entry). -/
def monthName (m : Nat) : String :=
  ["", "January", "February", "March", "April", "May", "June", "July",
   "August", "September", "October", "November", "December"].getD m ""

/-- `calendar.monthrange(2024, m)[1]`: days in month `m` of 2024 (leap year). -/
def monthrange2024 (m : Nat) : Nat :=
  [31, 29, 31, 30, 31, 30, 31, 31, 30, 31, 30, 31].getD (m - 1) 0

/-- `pd.Timestamp` applied to the f-string "2024-{m:02d}-{d}": succeeds exactly
when the month/day pair is a valid 2024 calendar date, otherwise raises. -/
def mkTimestamp2024 (m d : Nat) : Option CalDate :=
  if 1 ≤ m ∧ m ≤ 12 ∧ 1 ≤ d ∧ d ≤ monthrange2024 m then
    some ⟨2024, m, d⟩
  else
    none

/-- Streams of values standing for the random primitives used by
`generate_data`; the `Nat` argument indexes the loop iteration. -/
structure Oracle where
  dateBetween : CalDate → CalDate → Nat → CalDate
  uniform : ℚ → ℚ → Nat → ℚ
  choice : List String → Nat → String

/-- The documented contracts of the random primitives:
`faker.date_between_dates` stays inside the closed date interval,
`random.uniform a b` stays inside `[a, b]`, and `random.choice` picks a
member of its (nonempty) list. -/
structure OracleValid (o : Oracle) : Prop where
  dateBetween_mem : ∀ a b i, dateLE a b →
    dateLE a (o.dateBetween a b i) ∧ dateLE (o.dateBetween a b i) b
  uniform_mem : ∀ a b i, a ≤ b →
    a ≤ o.uniform a b i ∧ o.uniform a b i ≤ b
  choice_mem : ∀ l i, l ≠ [] → o.choice l i ∈ l

/-- A concrete valid oracle: every draw returns the least allowed value. -/
def trivOracle : Oracle where
  dateBetween := fun a _ _ => a
  uniform := fun a _ _ => a
  choice := fun l _ => l.headD ""

/-- Round a rational to the nearest integer, ties to even (Python `round`). -/
def rhe (y : ℚ) : ℤ :=
  if y - (⌊y⌋ : ℚ) < 1/2 then ⌊y⌋
  else if 1/2 < y - (⌊y⌋ : ℚ) then ⌊y⌋ + 1
  else if ⌊y⌋ % 2 = 0 then ⌊y⌋ else ⌊y⌋ + 1

/-- Python `round(x, 2)`: round to two decimal places, ties to even. -/
def round2 (x : ℚ) : ℚ := (rhe (x * 100) : ℚ) / 100

/-- A rational representable with at most two decimal places. -/
def twoDecimals (x : ℚ) : Prop := ∃ n : ℤ, x = (n : ℚ) / 100

/-- `generate_data(month)` from the source: builds 100 records for the given
month of 2024, or raises (here: `Except.error`) when the `pd.Timestamp`
construction of the month's first or last day fails. -/
def generate_data (o : Oracle) (month : Nat) : Except String (List Record) :=
  match mkTimestamp2024 month 1 with
  | none => .error "ValueError: could not construct Timestamp"
  | some dstart =>
    match mkTimestamp2024 month (monthrange2024 month) with
    | none => .error "ValueError: could not construct Timestamp"
    | some dend =>
      .ok ((List.range 100).map (fun i =>
        { Date := o.dateBetween dstart dend i
          Category := o.choice categories i
          Payment_Mode := o.choice payment_modes i
          Description := o.choice descriptions i
          Amount_Paid := round2 (o.uniform 10 500 i)
          Cashback := round2 (o.uniform 0 20 i)
          Month := monthName month }))

/-- Strip `pre` from the front of `l`, or `none` when `pre` is not a prefix. -/
def stripPre : List Char → List Char → Option (List Char)
  | [], rest => some rest
  | _ :: _, [] => none
  | c :: cs, d :: ds => if c = d then stripPre cs ds else none

/-- The characters after the first occurrence of `sep`, or `none`. -/
def afterSep (sep : List Char) : List Char → Option (List Char)
  | [] => none
  | c :: cs =>
    match stripPre sep (c :: cs) with
    | some rest => some rest
    | none => afterSep sep cs

/-- The characters up to the first space. -/
def takeWord : List Char → List Char
  | [] => []
  | c :: cs => if c = ' ' then [] else c :: takeWord cs

/-- The table named in a query's (single) FROM clause: the word following
the first " FROM " separator. All queries issued by the program name exactly
one table there. -/
def fromTable (sql : String) : String :=
  match afterSep " FROM ".data sql.data with
  | some rest => String.mk (takeWord rest)
  | none => ""

/-- Minimal stand-in for the sqlite parser: the shapes of SQL the program can
execute successfully all start with SELECT and have a FROM clause. -/
def sqlOk (sql : String) : Bool :=
  (stripPre "SELECT".data sql.data).isSome && (afterSep " FROM ".data sql.data).isSome

/-- The sqlite store: table name to list of rows, in creation order
(the file `expenses.db` of the source). -/
abbrev Store := List (String × List Record)

/-- Rows of the named table, `none` when the table does not exist. -/
def getTable : Store → String → Option (List Record)
  | [], _ => none
  | (n, r) :: rest, t => if n = t then some r else getTable rest t

/-- Replace the named table's rows, creating the table at the end if absent. -/
def setTable : Store → String → List Record → Store
  | [], t, v => [(t, v)]
  | (n, r) :: rest, t, v =>
    if n = t then (t, v) :: rest else (n, r) :: setTable rest t v

/-- `CREATE TABLE IF NOT EXISTS t (...)`: a no-op when `t` exists, else a new
empty table. -/
def createTableIfNotExists (s : Store) (t : String) : Store :=
  match getTable s t with
  | some _ => s
  | none => s ++ [(t, [])]

/-- The twelve month-table names, in the order `init_db` creates them. -/
def monthNames : List String := (List.range 12).map (fun i => monthName (i + 1))

/-- `init_db()` from the source: for month in 1..12, create the month-named
table if it does not exist. -/
def init_db (s : Store) : Store := monthNames.foldl createTableIfNotExists s

/-- `load_data_to_db(data, month)` from the source: pandas `to_sql` with
`if_exists='append'` appends the batch to the month's table, creating the
table when absent. -/
def load_data_to_db (s : Store) (data : List Record) (month : Nat) : Store :=
  setTable s (monthName month) ((getTable s (monthName month)).getD [] ++ data)

/-- Result of a successful query: full rows for `SELECT * FROM t`, an
abstract tabular result for the aggregate/projection queries (whose values
sqlite computes externally; no claim depends on them). -/
inductive QueryResult where
  | rows (rs : List Record)
  | aggregate
  deriving DecidableEq, Repr

/-- `query_data(query)` from the source: `pd.read_sql_query` against the
store. Modelled sqlite behaviour: a parse failure raises, a missing FROM
table raises "no such table", otherwise a result is produced (full rows for
a bare `SELECT * FROM t`). Errors are the raised exceptions. -/
def query_data (s : Store) (sql : String) : Except String QueryResult :=
  if sqlOk sql then
    match getTable s (fromTable sql) with
    | none => .error ("no such table: " ++ fromTable sql)
    | some rs =>
      .ok (if sql = "SELECT * FROM " ++ fromTable sql then .rows rs else .aggregate)
  else
    .error ("syntax error in query: " ++ sql)

/-- The predefined query catalog `SQL_QUERIES`, in source order. -/
def SQL_QUERIES : List (String × String) :=
  [("Total Amount Spent per Category",
    "SELECT Category, SUM(Amount_Paid) AS Total_Spent FROM expenses GROUP BY Category"),
   ("Monthly Spending Breakdown",
    "SELECT Month, SUM(Amount_Paid) AS Total_Spent FROM expenses GROUP BY Month"),
   ("Top 5 Highest Expenses",
    "SELECT * FROM expenses ORDER BY Amount_Paid DESC LIMIT 5"),
   ("Cash vs Online Transactions",
    "SELECT Payment_Mode, COUNT(*) AS Transaction_Count, SUM(Amount_Paid) AS Total_Spent FROM expenses GROUP BY Payment_Mode"),
   ("Average Cashback by Category",
    "SELECT Category, AVG(Cashback) AS Avg_Cashback FROM expenses GROUP BY Category"),
   ("Spending Trends Over Time",
    "SELECT Date, SUM(Amount_Paid) AS Daily_Spent FROM expenses GROUP BY Date ORDER BY Date"),
   ("Top Spending Days",
    "SELECT Date, SUM(Amount_Paid) AS Total_Spent FROM expenses GROUP BY Date ORDER BY Total_Spent DESC LIMIT 10"),
   ("Average Spending by Month",
    "SELECT Month, AVG(Amount_Paid) AS Avg_Spending FROM expenses GROUP BY Month"),
   ("Category Breakdown for January",
    "SELECT Category, SUM(Amount_Paid) AS Total_Spent FROM January GROUP BY Category"),
   ("Highest Cashback Transactions",
    "SELECT * FROM expenses ORDER BY Cashback DESC LIMIT 5"),
   ("Transactions Above 300",
    "SELECT * FROM expenses WHERE Amount_Paid > 300 ORDER BY Amount_Paid DESC"),
   ("Most Frequently Used Payment Mode",
    "SELECT Payment_Mode, COUNT(*) AS Usage_Count FROM expenses GROUP BY Payment_Mode ORDER BY Usage_Count DESC LIMIT 1"),
   ("Least Spent Categories",
    "SELECT Category, SUM(Amount_Paid) AS Total_Spent FROM expenses GROUP BY Category ORDER BY Total_Spent ASC LIMIT 5"),
   ("Daily Average Spending",
    "SELECT Date, AVG(Amount_Paid) AS Avg_Spending FROM expenses GROUP BY Date ORDER BY Date"),
   ("Weekly Spending Trends",
    "SELECT strftime(\x27%W\x27, Date) AS Week_Number, SUM(Amount_Paid) AS Weekly_Spent FROM expenses GROUP BY Week_Number"),
   ("Category-Wise Transaction Count",
    "SELECT Category, COUNT(*) AS Transaction_Count FROM expenses GROUP BY Category ORDER BY Transaction_Count DESC")]

/-- Catalog lookup, as `SQL_QUERIES[query_name]` in the source. -/
def sqlForLabel : List (String × String) → String → Option String
  | [], _ => none
  | (l, q) :: rest, label => if l = label then some q else sqlForLabel rest label

/-- What one script run shows for the executed action. -/
inductive DisplayOutput where
  | table (r : QueryResult)
  | errorMsg (m : String)
  | successMsg (m : String) (preview : List Record)
  | exception (m : String)
  | nothing
  deriving Repr

/-- The five sidebar actions of the interactive shell, with the input each
mode collects. Month selectors only offer 1..12 in the UI. -/
inductive ShellAction where
  | generate (month : Nat)
  | view (month : Nat)
  | visualize
  | runSQL (sql : String)
  | predefined (label : String)

/-- The hard-coded query of the Visualize Insights branch. -/
def visualizeSQL : String :=
  "SELECT Category, SUM(Amount_Paid) as Total_Spent FROM expenses GROUP BY Category"

/-- One pass through the `if option == ...` branches of the script, for the
chosen action: the store afterwards and what is displayed. Only the
Run SQL Query branch wraps `query_data` in try/except; every other branch
lets an exception propagate (surfaced by Streamlit, store untouched). -/
def runBranch (o : Oracle) (s : Store) : ShellAction → Store × DisplayOutput
  | .generate month =>
    match generate_data o month with
    | .error e => (s, .exception e)
    | .ok data =>
      (load_data_to_db s data month,
       .successMsg ("Data for " ++ monthName month ++
         " generated and loaded into the database!") (data.take 5))
  | .view month =>
    match query_data s ("SELECT * FROM " ++ monthName month) with
    | .error e => (s, .exception e)
    | .ok r => (s, .table r)
  | .visualize =>
    match query_data s visualizeSQL with
    | .error e => (s, .exception e)
    | .ok r => (s, .table r)
  | .runSQL sql =>
    match query_data s sql with
    | .error e => (s, .errorMsg ("An error occurred: " ++ e))
    | .ok r => (s, .table r)
  | .predefined label =>
    match sqlForLabel SQL_QUERIES label with
    | none => (s, .exception "KeyError")
    | some q =>
      match query_data s q with
      | .error e => (s, .exception e)
      | .ok r => (s, .table r)

/-- One full run of the Streamlit script for an action: the branch body
executes first (lines 105-153 of the source), then the top-level
`init_db()` call on the script's last line. -/
def scriptRun (o : Oracle) (s : Store) (a : ShellAction) : Store × DisplayOutput :=
  (init_db (runBranch o s a).1, (runBranch o s a).2)

/-- The first script run of a Streamlit session: the sidebar holds its
default ("Generate Data", the first option) and `st.button` returns false
on a run without a click, so the branch touches no store; then the
top-level `init_db()` runs. -/
def initialRun (s : Store) : Store := init_db s

/-- The store in effect when the action after the interactions `pre` starts
executing: the initial run, then one script run per earlier interaction. -/
def storeBefore (o : Oracle) (s : Store) (pre : List ShellAction) : Store :=
  pre.foldl (fun st a => (scriptRun o st a).1) (initialRun s)

/-- All twelve month tables exist in the store. -/
def hasAllMonthTables (s : Store) : Bool :=
  monthNames.all (fun t => (getTable s t).isSome)

/-- Connection lifecycle events inside one `query_data` call. -/
inductive ConnEvent where
  | openConn
  | execQuery
  | closeConn
  deriving DecidableEq, Repr

/-- The connection events `query_data` performs, in order: it opens a
connection, executes the query, and reaches `conn.close()` only when
`pd.read_sql_query` did not raise — the source has no try/finally, so an
exception propagates before the close statement runs. -/
def query_data_events (s : Store) (sql : String) : List ConnEvent :=
  match query_data s sql with
  | .error _ => [.openConn, .execQuery]
  | .ok _ => [.openConn, .execQuery, .closeConn]

/-! ### Store lemmas -/

theorem getTable_setTable_self (s : Store) (t : String) (v : List Record) :
    getTable (setTable s t v) t = some v := by
  induction s with
  | nil => simp [getTable, setTable]
  | cons p rest ih =>
    obtain ⟨n, r⟩ := p
    by_cases h : n = t
    · simp [setTable, h, getTable]
    · simp [setTable, h, getTable, ih]

theorem getTable_setTable_other (s : Store) (t n : String) (v : List Record)
    (h : n ≠ t) : getTable (setTable s t v) n = getTable s n := by
  have htn : t ≠ n := fun hh => h hh.symm
  induction s with
  | nil => simp [getTable, setTable, htn]
  | cons p rest ih =>
    obtain ⟨m, r⟩ := p
    by_cases hm : m = t
    · subst hm
      simp [setTable, getTable, htn]
    · simp [setTable, hm, getTable, ih]

theorem getTable_append_of_none (s l : Store) (t : String)
    (h : getTable s t = none) : getTable (s ++ l) t = getTable l t := by
  induction s with
  | nil => simp
  | cons p rest ih =>
    obtain ⟨n, r⟩ := p
    by_cases hn : n = t
    · simp [getTable, hn] at h
    · simp only [List.cons_append, getTable, if_neg hn] at h ⊢
      exact ih h

theorem getTable_append_of_some (s l : Store) (n : String) (v : List Record)
    (h : getTable s n = some v) : getTable (s ++ l) n = some v := by
  induction s with
  | nil => simp [getTable] at h
  | cons p rest ih =>
    obtain ⟨m, r⟩ := p
    by_cases hm : m = n
    · simp only [getTable, if_pos hm] at h ⊢
      exact h
    · simp only [List.cons_append, getTable, if_neg hm] at h ⊢
      exact ih h

theorem createTable_of_some (s : Store) (t : String)
    (h : (getTable s t).isSome) : createTableIfNotExists s t = s := by
  unfold createTableIfNotExists
  obtain ⟨v, hv⟩ := Option.isSome_iff_exists.mp h
  rw [hv]

theorem getTable_createTable_of_some (s : Store) (t n : String) (v : List Record)
    (h : getTable s n = some v) :
    getTable (createTableIfNotExists s t) n = some v := by
  unfold createTableIfNotExists
  cases hg : getTable s t with
  | some w => exact h
  | none => exact getTable_append_of_some s [(t, [])] n v h

theorem getTable_createTable_isSome (s : Store) (t n : String)
    (h : (getTable s n).isSome) :
    (getTable (createTableIfNotExists s t) n).isSome := by
  obtain ⟨v, hv⟩ := Option.isSome_iff_exists.mp h
  rw [getTable_createTable_of_some s t n v hv]
  rfl

theorem getTable_createTable_self_isSome (s : Store) (t : String) :
    (getTable (createTableIfNotExists s t) t).isSome := by
  unfold createTableIfNotExists
  cases hg : getTable s t with
  | some w => rw [hg]; rfl
  | none =>
    rw [getTable_append_of_none s [(t, [])] t hg]
    simp [getTable]

theorem foldl_create_of_some : ∀ (l : List String) (s : Store) (n : String)
    (v : List Record), getTable s n = some v →
    getTable (l.foldl createTableIfNotExists s) n = some v
  | [], _, _, _, h => h
  | a :: l, s, n, v, h =>
    foldl_create_of_some l _ n v (getTable_createTable_of_some s a n v h)

theorem foldl_create_isSome (l : List String) (s : Store) (n : String)
    (h : (getTable s n).isSome) :
    (getTable (l.foldl createTableIfNotExists s) n).isSome := by
  obtain ⟨v, hv⟩ := Option.isSome_iff_exists.mp h
  rw [foldl_create_of_some l s n v hv]
  rfl

theorem foldl_create_mem : ∀ (l : List String) (s : Store) (t : String),
    t ∈ l → (getTable (l.foldl createTableIfNotExists s) t).isSome
  | [], _, _, ht => absurd ht (List.not_mem_nil _)
  | a :: l, s, t, ht => by
    rcases List.mem_cons.mp ht with rfl | hmem
    · exact foldl_create_isSome l _ t (getTable_createTable_self_isSome s t)
    · exact foldl_create_mem l _ t hmem

theorem foldl_create_of_all_some : ∀ (l : List String) (s : Store),
    (∀ t ∈ l, (getTable s t).isSome) → l.foldl createTableIfNotExists s = s
  | [], _, _ => rfl
  | a :: l, s, h => by
    have ha : createTableIfNotExists s a = s :=
      createTable_of_some s a (h a (List.mem_cons_self a l))
    simp only [List.foldl_cons, ha]
    exact foldl_create_of_all_some l s (fun t ht => h t (List.mem_cons_of_mem a ht))

theorem init_db_preserves (s : Store) (n : String) (v : List Record)
    (h : getTable s n = some v) : getTable (init_db s) n = some v :=
  foldl_create_of_some monthNames s n v h

theorem init_db_creates_all (s : Store) :
    hasAllMonthTables (init_db s) = true := by
  simp only [hasAllMonthTables, List.all_eq_true]
  intro t ht
  exact foldl_create_mem monthNames s t ht

theorem init_db_idem (s : Store) : init_db (init_db s) = init_db s :=
  foldl_create_of_all_some monthNames (init_db s)
    (fun t ht => foldl_create_mem monthNames s t ht)

/-! ### Rounding, date and oracle lemmas -/

theorem rhe_ge (a : ℤ) (y : ℚ) (h : (a : ℚ) ≤ y) : a ≤ rhe y := by
  have hf : a ≤ ⌊y⌋ := Int.le_floor.mpr h
  unfold rhe
  split_ifs <;> omega

theorem rhe_le (b : ℤ) (y : ℚ) (h : y ≤ (b : ℚ)) : rhe y ≤ b := by
  have hfl : ⌊y⌋ ≤ b := by
    have h2 := Int.floor_le_floor h
    simpa using h2
  unfold rhe
  split_ifs with h1 h2 h3
  · exact hfl
  · have h4 : (⌊y⌋ : ℚ) < (b : ℚ) := by linarith
    have h5 : ⌊y⌋ < b := by exact_mod_cast h4
    omega
  · exact hfl
  · have h4 : (⌊y⌋ : ℚ) < (b : ℚ) := by linarith
    have h5 : ⌊y⌋ < b := by exact_mod_cast h4
    omega

theorem round2_ge (a : ℤ) (x : ℚ) (h : (a : ℚ) ≤ x) : (a : ℚ) ≤ round2 x := by
  have h1 : ((a * 100 : ℤ) : ℚ) ≤ x * 100 := by push_cast; linarith
  have h2 : (a * 100 : ℤ) ≤ rhe (x * 100) := rhe_ge (a * 100) (x * 100) h1
  have h3 : ((a * 100 : ℤ) : ℚ) ≤ ((rhe (x * 100) : ℤ) : ℚ) := Int.cast_le.mpr h2
  unfold round2
  push_cast at h3
  linarith

theorem round2_le (b : ℤ) (x : ℚ) (h : x ≤ (b : ℚ)) : round2 x ≤ (b : ℚ) := by
  have h1 : x * 100 ≤ ((b * 100 : ℤ) : ℚ) := by push_cast; linarith
  have h2 : rhe (x * 100) ≤ (b * 100 : ℤ) := rhe_le (b * 100) (x * 100) h1
  have h3 : ((rhe (x * 100) : ℤ) : ℚ) ≤ ((b * 100 : ℤ) : ℚ) := Int.cast_le.mpr h2
  unfold round2
  push_cast at h3
  linarith

theorem round2_twoDecimals (x : ℚ) : twoDecimals (round2 x) :=
  ⟨rhe (x * 100), rfl⟩

theorem dateLE_refl (a : CalDate) : dateLE a a :=
  Or.inr ⟨rfl, Or.inr ⟨rfl, le_refl _⟩⟩

theorem dateLE_between (m : Nat) (d : CalDate)
    (h1 : dateLE ⟨2024, m, 1⟩ d) (h2 : dateLE d ⟨2024, m, monthrange2024 m⟩) :
    d.year = 2024 ∧ d.month = m ∧ 1 ≤ d.day ∧ d.day ≤ monthrange2024 m := by
  obtain ⟨y, mo, dd⟩ := d
  simp only [dateLE] at h1 h2
  simp only []
  omega

theorem trivOracle_valid : OracleValid trivOracle where
  dateBetween_mem := fun a _ _ h => ⟨dateLE_refl a, h⟩
  uniform_mem := fun a _ _ h => ⟨le_refl a, h⟩
  choice_mem := fun l _ h => by
    cases l with
    | nil => exact absurd rfl h
    | cons x xs => simp [trivOracle]

theorem monthrange2024_pos (m : Nat) (h1 : 1 ≤ m) (h2 : m ≤ 12) :
    1 ≤ monthrange2024 m := by
  interval_cases m <;> decide

theorem generate_data_ok (o : Oracle) (m : Nat) (h1 : 1 ≤ m) (h2 : m ≤ 12) :
    generate_data o m =
      .ok ((List.range 100).map (fun i =>
        { Date := o.dateBetween ⟨2024, m, 1⟩ ⟨2024, m, monthrange2024 m⟩ i
          Category := o.choice categories i
          Payment_Mode := o.choice payment_modes i
          Description := o.choice descriptions i
          Amount_Paid := round2 (o.uniform 10 500 i)
          Cashback := round2 (o.uniform 0 20 i)
          Month := monthName m })) := by
  have hd : 1 ≤ monthrange2024 m := monthrange2024_pos m h1 h2
  have hs : mkTimestamp2024 m 1 = some ⟨2024, m, 1⟩ := by
    unfold mkTimestamp2024
    rw [if_pos ⟨h1, h2, le_refl 1, hd⟩]
  have he : mkTimestamp2024 m (monthrange2024 m) = some ⟨2024, m, monthrange2024 m⟩ := by
    unfold mkTimestamp2024
    rw [if_pos ⟨h1, h2, hd, le_refl _⟩]
  unfold generate_data
  rw [hs, he]

/-! ### Claims about the generator -/

/-- C1: for every month m in 1..12 and every draw sequence satisfying the
random primitives' contracts, generate_data returns exactly 100 expense
records; each record's Date falls within [first day of m, last day of m] of
the fixed reference year 2024, and each record's Month field equals the
English month name of m. -/
theorem c1_generate_data_month_shape (o : Oracle) (m : Nat) (ho : OracleValid o)
    (h1 : 1 ≤ m) (h2 : m ≤ 12) :
    ∃ l, generate_data o m = .ok l ∧ l.length = 100 ∧
      ∀ r ∈ l,
        (dateLE ⟨2024, m, 1⟩ r.Date ∧ dateLE r.Date ⟨2024, m, monthrange2024 m⟩) ∧
        r.Date.year = 2024 ∧ r.Date.month = m ∧
        1 ≤ r.Date.day ∧ r.Date.day ≤ monthrange2024 m ∧
        r.Month = monthName m := by
  refine ⟨_, generate_data_ok o m h1 h2, by simp, ?_⟩
  intro r hr
  simp only [List.mem_map, List.mem_range] at hr
  obtain ⟨i, _, rfl⟩ := hr
  have hse : dateLE ⟨2024, m, 1⟩ ⟨2024, m, monthrange2024 m⟩ :=
    Or.inr ⟨rfl, Or.inr ⟨rfl, monthrange2024_pos m h1 h2⟩⟩
  have hdb := ho.dateBetween_mem ⟨2024, m, 1⟩ ⟨2024, m, monthrange2024 m⟩ i hse
  have hcomp := dateLE_between m _ hdb.1 hdb.2
  exact ⟨⟨hdb.1, hdb.2⟩, hcomp.1, hcomp.2.1, hcomp.2.2.1, hcomp.2.2.2, rfl⟩

/-- C1 witness at month 1 with the concrete least-value oracle. -/
theorem c1_witness :
    ∃ l, generate_data trivOracle 1 = .ok l ∧ l.length = 100 ∧
      ∀ r ∈ l,
        (dateLE ⟨2024, 1, 1⟩ r.Date ∧ dateLE r.Date ⟨2024, 1, monthrange2024 1⟩) ∧
        r.Date.year = 2024 ∧ r.Date.month = 1 ∧
        1 ≤ r.Date.day ∧ r.Date.day ≤ monthrange2024 1 ∧
        r.Month = monthName 1 :=
  c1_generate_data_month_shape trivOracle 1 trivOracle_valid (by norm_num) (by norm_num)

/-- C7: every generated record's Amount_Paid lies in [10, 500] and Cashback
in [0, 20], each rounded to two decimal places. -/
theorem c7_amount_cashback_bounds (o : Oracle) (ho : OracleValid o) (m : Nat)
    (l : List Record) (h : generate_data o m = .ok l) :
    ∀ r ∈ l, 10 ≤ r.Amount_Paid ∧ r.Amount_Paid ≤ 500 ∧ twoDecimals r.Amount_Paid ∧
      0 ≤ r.Cashback ∧ r.Cashback ≤ 20 ∧ twoDecimals r.Cashback := by
  unfold generate_data at h
  cases hs : mkTimestamp2024 m 1 with
  | none => rw [hs] at h; cases h
  | some dstart =>
    rw [hs] at h
    cases he : mkTimestamp2024 m (monthrange2024 m) with
    | none => rw [he] at h; cases h
    | some dend =>
      rw [he] at h
      injection h with h
      subst h
      intro r hr
      simp only [List.mem_map, List.mem_range] at hr
      obtain ⟨i, _, rfl⟩ := hr
      have hu1 := ho.uniform_mem 10 500 i (by norm_num)
      have hu2 := ho.uniform_mem 0 20 i (by norm_num)
      refine ⟨?_, ?_, round2_twoDecimals _, ?_, ?_, round2_twoDecimals _⟩
      · exact_mod_cast round2_ge 10 _ (by exact_mod_cast hu1.1)
      · exact_mod_cast round2_le 500 _ (by exact_mod_cast hu1.2)
      · exact_mod_cast round2_ge 0 _ (by exact_mod_cast hu2.1)
      · exact_mod_cast round2_le 20 _ (by exact_mod_cast hu2.2)

/-- The record batch of one concrete generator run (month 1, least-value
oracle). -/
def sampleRecords : List Record := (generate_data trivOracle 1).toOption.getD []

/-- The head of a nonempty list is a member. -/
theorem headD_mem {α : Type} (l : List α) (d : α) (h : l ≠ []) :
    l.headD d ∈ l := by
  cases l with
  | nil => exact absurd rfl h
  | cons x xs => exact List.mem_cons_self x xs

/-- The first record of the concrete generator run behind c7_witness. -/
def firstSample : Record := sampleRecords.headD
  { Date := ⟨2024, 1, 1⟩, Category := "Food", Payment_Mode := "Cash",
    Description := "Bought groceries", Amount_Paid := 10, Cashback := 0,
    Month := "January" }

/-- C7 witness on one record of a concrete generator run. -/
theorem c7_witness :
    10 ≤ firstSample.Amount_Paid ∧ firstSample.Amount_Paid ≤ 500 ∧
    twoDecimals firstSample.Amount_Paid ∧
    0 ≤ firstSample.Cashback ∧ firstSample.Cashback ≤ 20 ∧
    twoDecimals firstSample.Cashback :=
  c7_amount_cashback_bounds trivOracle trivOracle_valid 1 sampleRecords rfl
    firstSample (headD_mem sampleRecords _ (by decide))

/-- C10: for every month number outside 1..12 the generator raises while
constructing the month's date range, before producing any record, and the
Generate branch leaves the store unchanged. -/
theorem c10_invalid_month_raises (o : Oracle) (m : Nat) (h : m < 1 ∨ 12 < m) :
    generate_data o m = .error "ValueError: could not construct Timestamp" ∧
    ∀ s : Store, runBranch o s (.generate m) =
      (s, .exception "ValueError: could not construct Timestamp") := by
  have hnone : mkTimestamp2024 m 1 = none := by
    unfold mkTimestamp2024
    rw [if_neg]
    rintro ⟨a, b, _⟩
    omega
  have hg : generate_data o m = .error "ValueError: could not construct Timestamp" := by
    unfold generate_data
    rw [hnone]
  exact ⟨hg, fun s => by simp [runBranch, hg]⟩

/-- C10 witness at month 13. -/
theorem c10_witness :
    generate_data trivOracle 13 = .error "ValueError: could not construct Timestamp" ∧
    runBranch trivOracle [] (.generate 13) =
      ([], .exception "ValueError: could not construct Timestamp") :=
  ⟨(c10_invalid_month_raises trivOracle 13 (by norm_num)).1,
   (c10_invalid_month_raises trivOracle 13 (by norm_num)).2 []⟩

/-! ### Claims about the store, the catalog and the shell -/

/-- C2: the predefined query "Cash vs Online Transactions" — and every other
catalog entry whose FROM table is "expenses" — fails with a table-not-found
error against the store containing only the twelve month tables created by
init_db, because init_db never creates a table or view named "expenses". -/
theorem c2_expenses_queries_fail (p : String × String) (hmem : p ∈ SQL_QUERIES)
    (h : fromTable p.2 = "expenses") :
    getTable (init_db []) "expenses" = none ∧
    query_data (init_db []) p.2 = .error "no such table: expenses" := by
  refine ⟨by decide, ?_⟩
  fin_cases hmem <;> first
    | rfl
    | exact absurd h (by decide)

/-- C2 witness on the "Cash vs Online Transactions" entry. -/
theorem c2_witness :
    getTable (init_db []) "expenses" = none ∧
    query_data (init_db [])
      "SELECT Payment_Mode, COUNT(*) AS Transaction_Count, SUM(Amount_Paid) AS Total_Spent FROM expenses GROUP BY Payment_Mode"
      = .error "no such table: expenses" :=
  c2_expenses_queries_fail
    ("Cash vs Online Transactions",
     "SELECT Payment_Mode, COUNT(*) AS Transaction_Count, SUM(Amount_Paid) AS Total_Spent FROM expenses GROUP BY Payment_Mode")
    (by decide) (by decide)

/-- C3 counterexample: the "Category Breakdown for January" entry references
the table "January", which the Schema Initializer DOES create, so against the
initializer-only store the query does not fail — it succeeds. -/
theorem c3_counterexample :
    ("Category Breakdown for January",
     "SELECT Category, SUM(Amount_Paid) AS Total_Spent FROM January GROUP BY Category")
      ∈ SQL_QUERIES ∧
    getTable (init_db []) "January" = some [] ∧
    query_data (init_db [])
      "SELECT Category, SUM(Amount_Paid) AS Total_Spent FROM January GROUP BY Category"
      = .ok QueryResult.aggregate :=
  ⟨by decide, by decide, rfl⟩

/-- C3 amended: the "Category Breakdown for January" query references the
table "January", which IS created by the Schema Initializer, so against any
store processed by init_db it runs without a table-not-found error. -/
theorem c3_amended_january_query_succeeds (s : Store) :
    fromTable "SELECT Category, SUM(Amount_Paid) AS Total_Spent FROM January GROUP BY Category"
      = "January" ∧
    (getTable (init_db s) "January").isSome = true ∧
    query_data (init_db s)
      "SELECT Category, SUM(Amount_Paid) AS Total_Spent FROM January GROUP BY Category"
      = .ok QueryResult.aggregate := by
  have hjan : (getTable (init_db s) "January").isSome :=
    foldl_create_mem monthNames s "January" (by decide)
  obtain ⟨v, hv⟩ := Option.isSome_iff_exists.mp hjan
  refine ⟨by decide, hjan, ?_⟩
  have hok : sqlOk "SELECT Category, SUM(Amount_Paid) AS Total_Spent FROM January GROUP BY Category" = true := by
    decide
  have hfrom : fromTable "SELECT Category, SUM(Amount_Paid) AS Total_Spent FROM January GROUP BY Category" = "January" := by
    decide
  simp only [query_data, hok, hfrom, eq_self_iff_true, if_true, hv]
  rw [if_neg (by decide)]

/-- C4: for any prior store state, a second invocation of init_db is a
no-op (idempotence), and initializing never alters the rows of any
existing table. -/
theorem c4_init_db_idempotent (s : Store) :
    init_db (init_db s) = init_db s ∧
    ∀ n v, getTable s n = some v → getTable (init_db s) n = some v :=
  ⟨init_db_idem s, fun n v h => init_db_preserves s n v h⟩

/-- C4 witness: double initialization of the fresh store, and of a store
already holding a table, whose rows survive. -/
theorem c4_witness :
    init_db (init_db []) = init_db [] ∧
    init_db (init_db [("Extra", [])]) = init_db [("Extra", [])] ∧
    getTable (init_db [("Extra", [])]) "Extra" = some [] :=
  ⟨(c4_init_db_idempotent []).1,
   (c4_init_db_idempotent [("Extra", [])]).1,
   (c4_init_db_idempotent [("Extra", [])]).2 "Extra" [] (by decide)⟩

/-- The view query of month m starts with SELECT and names the month table. -/
theorem view_query_facts (m : Nat) (h1 : 1 ≤ m) (h2 : m ≤ 12) :
    sqlOk ("SELECT * FROM " ++ monthName m) = true ∧
    fromTable ("SELECT * FROM " ++ monthName m) = monthName m := by
  interval_cases m <;> exact ⟨by decide, by decide⟩

/-- C5: ingestion is strictly additive: loading a batch appends it to the
month's table; the view query then returns exactly the old rows followed by
the batch (count = previous count + batch size), and no other table changes. -/
theorem c5_ingestion_additive (s : Store) (data : List Record) (m : Nat)
    (h1 : 1 ≤ m) (h2 : m ≤ 12) :
    getTable (load_data_to_db s data m) (monthName m)
      = some ((getTable s (monthName m)).getD [] ++ data) ∧
    query_data (load_data_to_db s data m) ("SELECT * FROM " ++ monthName m)
      = .ok (.rows ((getTable s (monthName m)).getD [] ++ data)) ∧
    ((getTable s (monthName m)).getD [] ++ data).length
      = ((getTable s (monthName m)).getD []).length + data.length ∧
    (∀ t, t ≠ monthName m → getTable (load_data_to_db s data m) t = getTable s t) := by
  obtain ⟨hok, hfrom⟩ := view_query_facts m h1 h2
  have hget : getTable (load_data_to_db s data m) (monthName m)
      = some ((getTable s (monthName m)).getD [] ++ data) :=
    getTable_setTable_self s (monthName m) _
  refine ⟨hget, ?_, by simp, fun t ht => getTable_setTable_other s (monthName m) t _ ht⟩
  simp only [query_data, hok, eq_self_iff_true, if_true, hfrom, hget]

/-- A concrete record for witnesses. -/
def sampleRec : Record :=
  { Date := ⟨2024, 1, 1⟩, Category := "Food", Payment_Mode := "Cash",
    Description := "Bought groceries", Amount_Paid := 10, Cashback := 0,
    Month := "January" }

/-- C5 witness: one batch of one record into the empty store for January. -/
theorem c5_witness :
    getTable (load_data_to_db [] [sampleRec] 1) (monthName 1)
      = some ((getTable [] (monthName 1)).getD [] ++ [sampleRec]) ∧
    query_data (load_data_to_db [] [sampleRec] 1) ("SELECT * FROM " ++ monthName 1)
      = .ok (.rows ((getTable [] (monthName 1)).getD [] ++ [sampleRec])) ∧
    ((getTable [] (monthName 1)).getD [] ++ [sampleRec]).length
      = ((getTable [] (monthName 1)).getD []).length + [sampleRec].length ∧
    (∀ t, t ≠ monthName 1 →
      getTable (load_data_to_db [] [sampleRec] 1) t = getTable [] t) :=
  c5_ingestion_additive [] [sampleRec] 1 (by norm_num) (by norm_num)

/-- C6: a SQL string the parser rejects makes the free-text Run SQL Query
branch display the error message, leave the store unchanged, and return
normally (the exception is caught, so the shell does not crash). -/
theorem c6_invalid_sql_contained (o : Oracle) (s : Store) (sql : String)
    (h : sqlOk sql = false) :
    runBranch o s (.runSQL sql)
      = (s, .errorMsg ("An error occurred: " ++ ("syntax error in query: " ++ sql))) := by
  have hq : query_data s sql = .error ("syntax error in query: " ++ sql) := by
    simp [query_data, h]
  simp [runBranch, hq]

/-- C6 witness on a non-SELECT input string. -/
theorem c6_witness :
    runBranch trivOracle [] (.runSQL "DELETE FROM January")
      = ([], .errorMsg ("An error occurred: " ++
          ("syntax error in query: " ++ "DELETE FROM January"))) :=
  c6_invalid_sql_contained trivOracle [] "DELETE FROM January" (by decide)

/-- C8: on every Streamlit session over the script, all twelve month tables
exist in the store an action executes against: the first script run (sidebar
at its default, generate button unclicked) touches no table and ends in the
top-level init_db() call, and every later run starts from a store some prior
run's init_db() already processed. -/
theorem c8_tables_before_every_action (o : Oracle) (s : Store)
    (pre : List ShellAction) :
    hasAllMonthTables (storeBefore o s pre) = true := by
  suffices h : ∀ (l : List ShellAction) (st : Store), hasAllMonthTables st = true →
      hasAllMonthTables (l.foldl (fun st a => (scriptRun o st a).1) st) = true by
    exact h pre (initialRun s) (init_db_creates_all s)
  intro l
  induction l with
  | nil => intro st h; exact h
  | cons a l ih =>
    intro st h
    simp only [List.foldl_cons]
    have hstep : (scriptRun o st a).1 = init_db (runBranch o st a).1 := by
      simp [scriptRun]
    rw [hstep]
    exact ih _ (init_db_creates_all _)

/-- C9 counterexample: when the query raises (here: the Visualize query on a
store with no "expenses" table), query_data propagates the exception without
reaching conn.close() — the close event is absent from the call's trace. -/
theorem c9_counterexample :
    query_data_events (init_db []) visualizeSQL
      = [ConnEvent.openConn, ConnEvent.execQuery] ∧
    ConnEvent.closeConn ∉ query_data_events (init_db []) visualizeSQL :=
  ⟨rfl, by decide⟩

/-- The connection events of one load_data_to_db call, in order: it opens a
connection, performs the append write (pandas to_sql, which in this model —
create-if-absent plus row append, as in C5 — has no failure path), and
reaches conn.close(). -/
def load_data_to_db_events (_data : List Record) (_month : Nat) : List ConnEvent :=
  [.openConn, .execQuery, .closeConn]

/-- The connection events of the single store operation one action performs:
the generate action opens its connection inside load_data_to_db (no
connection at all when generate_data raised before the load), the other
four actions open theirs inside query_data (no connection when the catalog
label is unknown). -/
def actionConnEvents (o : Oracle) (s : Store) : ShellAction → List ConnEvent
  | .generate month =>
    match generate_data o month with
    | .error _ => []
    | .ok data => load_data_to_db_events data month
  | .view month => query_data_events s ("SELECT * FROM " ++ monthName month)
  | .visualize => query_data_events s visualizeSQL
  | .runSQL sql => query_data_events s sql
  | .predefined label =>
    match sqlForLabel SQL_QUERIES label with
    | none => []
    | some q => query_data_events s q

/-- C9 amended: every action's single store operation opens its own
connection and closes it before returning control on the success path — the
generate action's write (load_data_to_db) always reaches its close, and a
query that returns a result closes; on the path where query execution
raises an error the connection is NOT closed: the exception propagates
before conn.close() (query_data has no try/finally). The last four
conjuncts identify each query action's trace with its query_data call's. -/
theorem c9_amended_close_only_on_success (o : Oracle) (s : Store) :
    (∀ month data, generate_data o month = .ok data →
      actionConnEvents o s (.generate month)
        = [.openConn, .execQuery, .closeConn]) ∧
    (∀ sql r, query_data s sql = .ok r →
      query_data_events s sql = [.openConn, .execQuery, .closeConn]) ∧
    (∀ sql e, query_data s sql = .error e →
      query_data_events s sql = [.openConn, .execQuery]) ∧
    (∀ month, actionConnEvents o s (.view month)
      = query_data_events s ("SELECT * FROM " ++ monthName month)) ∧
    (actionConnEvents o s .visualize = query_data_events s visualizeSQL) ∧
    (∀ sql, actionConnEvents o s (.runSQL sql) = query_data_events s sql) ∧
    (∀ label q, sqlForLabel SQL_QUERIES label = some q →
      actionConnEvents o s (.predefined label) = query_data_events s q) := by
  refine ⟨?_, ?_, ?_, fun month => rfl, rfl, fun sql => rfl, ?_⟩
  · intro month data h
    simp [actionConnEvents, h, load_data_to_db_events]
  · intro sql r hr
    simp [query_data_events, hr]
  · intro sql e he
    simp [query_data_events, he]
  · intro label q h
    simp [actionConnEvents, h]

/-- C9 witness: on the initialized store, the generate action's write closes
its connection, a successful view query closes its connection, and the
error path of the Visualize query (and of the predefined Cash vs Online
entry) leaves the connection unclosed. -/
theorem c9_witness :
    actionConnEvents trivOracle (init_db []) (.generate 1)
      = [ConnEvent.openConn, ConnEvent.execQuery, ConnEvent.closeConn] ∧
    query_data_events (init_db []) "SELECT * FROM January"
      = [ConnEvent.openConn, ConnEvent.execQuery, ConnEvent.closeConn] ∧
    query_data_events (init_db []) visualizeSQL
      = [ConnEvent.openConn, ConnEvent.execQuery] ∧
    actionConnEvents trivOracle (init_db [])
        (.predefined "Cash vs Online Transactions")
      = query_data_events (init_db [])
          "SELECT Payment_Mode, COUNT(*) AS Transaction_Count, SUM(Amount_Paid) AS Total_Spent FROM expenses GROUP BY Payment_Mode" :=
  ⟨(c9_amended_close_only_on_success trivOracle (init_db [])).1
      1 sampleRecords rfl,
   (c9_amended_close_only_on_success trivOracle (init_db [])).2.1
      "SELECT * FROM January" (QueryResult.rows []) rfl,
   (c9_amended_close_only_on_success trivOracle (init_db [])).2.2.1
      visualizeSQL "no such table: expenses" rfl,
   (c9_amended_close_only_on_success trivOracle (init_db [])).2.2.2.2.2.2
      "Cash vs Online Transactions"
      "SELECT Payment_Mode, COUNT(*) AS Transaction_Count, SUM(Amount_Paid) AS Total_Spent FROM expenses GROUP BY Payment_Mode"
      rfl⟩
